import Mathlib

/-!
Verification development for the per-message AI session manager of the
email dashboard (src/app/page.jsx) and its attachment-recommendation
helper (src/components/ChatPanel.jsx).

The JavaScript is shallowly embedded: the React `chatSessions` object (a
string-keyed map of session records) becomes an association list with
JS-object semantics (`setKey` overwrites in place or appends; `delete`
filters), each `setChatSessions(prev => ...)` functional update becomes a
pure `Store → Store` function, and the async runner `sendAiMessage` is
split into its three synchronous store transitions: the optimistic start
update, the success update and the failure update.  All functions are
total and executable; JavaScript string primitives (`includes`,
`indexOf`, `substring`, `trim`, `toLowerCase`, `split`, regex helpers)
are re-implemented structurally over `List Char` so that concrete
instances evaluate by `decide` / `rfl`.
-/

namespace EmailDash

/-- One transcript entry: `{role, content}` as used throughout page.jsx. -/
structure ChatMsg where
  role : String
  content : String
deriving DecidableEq, Repr

/-- Google-Drive file metadata `{id, name, mimeType}` (FileRef of the spec). -/
structure DriveFile where
  id : String
  name : String
  mimeType : String
deriving DecidableEq, Repr

/-- A recommendation line parsed out of an AI reply: `{filename, reason}`. -/
structure Recommendation where
  filename : String
  reason : String
deriving DecidableEq, Repr

/-- Matcher output record `{...rec, driveFile}` where `driveFile` may be null. -/
structure MatchedRec where
  filename : String
  reason : String
  driveFile : Option DriveFile
deriving DecidableEq, Repr

/-- One AI chat session, mirroring the record built in `createChatSession`
(page.jsx:54-78).  `emailContext`, `opportunity` and `emailRef` are opaque
payloads never inspected by the session core, so they are embedded as
strings.  `messages` is the transcript, `loading` the isBusy flag. -/
structure Session where
  msgId : String
  emailContext : String
  opportunity : String
  emailRef : String
  phase : String
  messages : List ChatMsg
  loading : Bool
  selectedProvider : String
  selectedModel : String
  selectedPreset : Option String
  systemPrompt : String
  driveFiles : List DriveFile
  driveFilesContent : List String
  driveLoading : Bool
  driveError : Option String
  driveLoaded : Bool
  attachedFiles : List String
  recommendedFiles : List DriveFile
deriving DecidableEq, Repr

/-- The `chatSessions` React state: a string-keyed JS object of sessions,
embedded as an association list in insertion order. -/
abbrev Store := List (String × Session)

/-- JS property read `prev[sessionId]` (first binding wins; keys are unique
because `setKey` overwrites in place). -/
def getSession : Store → String → Option Session
  | [], _ => none
  | (k', s) :: rest, k => if k' = k then some s else getSession rest k

/-- JS spread `{...prev, [k]: s}`: overwrite the existing binding in place,
or append a new binding at the end (JS objects keep insertion order). -/
def setKey : Store → String → Session → Store
  | [], k, s => [(k, s)]
  | (k', s') :: rest, k, s =>
      if k' = k then (k, s) :: rest else (k', s') :: setKey rest k s

theorem getSession_setKey_self (st : Store) (k : String) (s : Session) :
    getSession (setKey st k s) k = some s := by
  induction st with
  | nil => simp [setKey, getSession]
  | cons p rest ih =>
      obtain ⟨k', s'⟩ := p
      by_cases h : k' = k
      · simp [setKey, getSession, h]
      · simp [setKey, getSession, h, ih]

theorem getSession_setKey_ne (st : Store) (k k' : String) (s : Session)
    (h : k ≠ k') : getSession (setKey st k s) k' = getSession st k' := by
  induction st with
  | nil => simp [setKey, getSession, h]
  | cons p rest ih =>
      obtain ⟨k₀, s₀⟩ := p
      by_cases h0 : k₀ = k
      · subst h0
        simp [setKey, getSession, h]
      · simp [setKey, getSession, h0, ih]

/-! ### JavaScript string primitives, embedded structurally over `List Char` -/

/-- The character class of the JS regex `\s` (whitespace). -/
def isJsWs (c : Char) : Bool :=
  c = '\t' || c = '\n' || c = '\x0b' || c = '\x0c' || c = '\r' || c = ' ' ||
  c = '\u00a0' || c = '\u1680' || ('\u2000' ≤ c && c ≤ '\u200a') ||
  c = '\u2028' || c = '\u2029' || c = '\u202f' || c = '\u205f' ||
  c = '\u3000' || c = '\ufeff'

/-- ASCII lowering, the effect of JS `toLowerCase()` on the ASCII inputs the
dashboard manipulates (filenames, error details, tags). -/
def jsToLower (s : String) : String := String.mk (s.toList.map Char.toLower)

/-- JS `String.prototype.trim()`. -/
def jsTrim (s : String) : String :=
  String.mk (((s.toList.dropWhile isJsWs).reverse.dropWhile isJsWs).reverse)

/-- JS `a.startsWith(b)`. -/
def jsStartsWith (s pat : String) : Bool := pat.toList.isPrefixOf s.toList

/-- Does `hay` contain `pat` as a contiguous run? (JS `a.includes(b)`.) -/
def hasSubstringAux (hay pat : List Char) : Bool :=
  match hay with
  | [] => pat.isEmpty
  | c :: t => if pat.isPrefixOf (c :: t) then true else hasSubstringAux t pat

/-- JS `s.includes(pat)`. -/
def jsIncludes (s pat : String) : Bool := hasSubstringAux s.toList pat.toList

/-- First index at which `pat` occurs, scanning left to right. -/
def strIndexOfAux (pat : List Char) : List Char → Nat → Option Nat
  | [], i => if pat.isPrefixOf ([] : List Char) then some i else none
  | c :: t, i =>
      if pat.isPrefixOf (c :: t) then some i else strIndexOfAux pat t (i + 1)

/-- JS `s.indexOf(pat)`, as `none` for -1 (callers test -1 before use). -/
def strIndexOf? (s pat : String) : Option Nat := strIndexOfAux pat.toList s.toList 0

/-- JS `s.substring(a, b)`: clamps both indices to the length and swaps them
when `a > b`. -/
def jsSubstring (s : String) (a b : Nat) : String :=
  let n := s.toList.length
  let a' := min a n
  let b' := min b n
  String.mk ((s.toList.drop (min a' b')).take (max a' b' - min a' b'))

/-- JS `s.split(sep)` for the single-character separator `'\n'`: keeps empty
pieces, never drops a trailing field. -/
def splitLinesAux : List Char → List Char → List String
  | [], acc => [String.mk acc.reverse]
  | c :: cs, acc =>
      if c = '\n' then String.mk acc.reverse :: splitLinesAux cs []
      else splitLinesAux cs (c :: acc)

def splitLines (s : String) : List String := splitLinesAux s.toList []

/-- `Math.ceil(n * 0.5)` on a JS array length. -/
def jsCeilHalf (n : Nat) : Nat := (n + 1) / 2

/-- Lowercase a character run, for the case-insensitive (`/i`) regex tests. -/
def lowerChars (l : List Char) : List Char := l.map Char.toLower

/-! ### parseRecommendedAttachments (ChatPanel.jsx:86-105) -/

def startTag : String := "RECOMMENDED_ATTACHMENTS_START"

def endTag : String := "RECOMMENDED_ATTACHMENTS_END"

/-- `line.replace(/^-\s*/, '')`: strip one leading dash and the whitespace
run after it; lines not starting with a dash are left untouched. -/
def stripLeadingDashWs (s : String) : String :=
  match s.toList with
  | [] => s
  | c :: rest => if c = '-' then String.mk (rest.dropWhile isJsWs) else s

/-- Can `region` be consumed by `\s*(.+?)\s*` of the primary line regex?
True when some decomposition `ws ++ g1 ++ ws` exists with `g1` nonempty and
free of line terminators (JS `.` matches neither `\n` nor `\r`). -/
def g1Possible (region : List Char) : Bool :=
  (List.range region.length).any (fun i =>
    (List.range (region.length - i)).any (fun m =>
      (region.take i).all isJsWs &&
      ((region.drop (i + m + 1)).all isJsWs) &&
      ((region.drop i).take (m + 1)).all (fun c => !(c = '\n') && !(c = '\r'))))

/-- Match the `\s*reason:\s*(.+)` tail of the primary line regex against the
text after the chosen `|`.  Returns the greedy `(.+)` capture; in the
degenerate all-whitespace case the capture is whitespace-only and the caller
trims it away, so `[]` is returned for it. -/
def afterPipeMatch (t : List Char) : Option (List Char) :=
  let t1 := t.dropWhile isJsWs
  if ("reason:".toList).isPrefixOf (lowerChars t1) then
    let t2 := t1.drop 7
    let rest := t2.dropWhile isJsWs
    if !rest.isEmpty then
      some (rest.takeWhile (fun c => !(c = '\n') && !(c = '\r')))
    else if t2.any (fun c => !(c = '\n') && !(c = '\r')) then some ([] : List Char)
    else none
  else none

/-- Scan for the `|` chosen by the lazy group: the leftmost pipe whose left
side can be consumed by `\s*(.+?)\s*` and whose right side matches
`\s*reason:\s*(.+)`.  Returns the full left region (trim-equivalent to the
regex capture, and the caller always trims) and the reason capture. -/
def findPipeAux : List Char → List Char → Option (String × String)
  | _, [] => none
  | seen, c :: after =>
      if c = '|' && !seen.isEmpty && g1Possible seen.reverse &&
          (afterPipeMatch after).isSome then
        some (String.mk seen.reverse, String.mk ((afterPipeMatch after).getD []))
      else findPipeAux (c :: seen) after

/-- `cleaned.match(/filename:\s*(.+?)\s*\|\s*reason:\s*(.+)/i)` on a line
(no `\n` inside).  Tries every start position left to right, as the regex
engine does. -/
def mfrAux : List Char → Option (String × String)
  | [] => none
  | c :: rest =>
      if ("filename:".toList).isPrefixOf (lowerChars (c :: rest)) then
        match findPipeAux [] ((c :: rest).drop 9) with
        | some p => some p
        | none => mfrAux rest
      else mfrAux rest

def matchFilenameReason (s : String) : Option (String × String) := mfrAux s.toList

/-- One scan step of `cleaned.split(/\s[—–-]\s/)`: split on every
whitespace–dash–whitespace triple, leftmost and non-overlapping. -/
def splitDashSepAux : List Char → List Char → List String
  | a :: b :: c :: rest, acc =>
      if isJsWs a && (b = '—' || b = '–' || b = '-') && isJsWs c then
        String.mk acc.reverse :: splitDashSepAux rest []
      else splitDashSepAux (b :: c :: rest) (a :: acc)
  | l, acc => [String.mk (acc.reverse ++ l)]
termination_by l _ => l.length

/-- JS `parts.slice(1).join(' — ')` applied to the already-sliced list. -/
def joinWithEmDash : List String → String
  | [] => ""
  | p :: ps => ps.foldl (fun a b => a ++ " — " ++ b) p

/-- The per-line body of `parseRecommendedAttachments`: primary structured
pattern, then the dash-separator fallback split, then the bare-line default. -/
def parseRecLine (line : String) : Recommendation :=
  let cleaned := stripLeadingDashWs line
  match matchFilenameReason cleaned with
  | some (fn, rs) => { filename := jsTrim fn, reason := jsTrim rs }
  | none =>
      let parts := splitDashSepAux cleaned.toList []
      if 2 ≤ parts.length then
        { filename := jsTrim (parts.headD ""),
          reason := jsTrim (joinWithEmDash (parts.drop 1)) }
      else { filename := jsTrim cleaned, reason := "" }

/-- `parseRecommendedAttachments(text)` (ChatPanel.jsx:86-105): extract the
delimited block, keep the lines whose trimmed form starts with `-`, and parse
each one. -/
def parseRecommendedAttachments (text : String) : List Recommendation :=
  match strIndexOf? text startTag, strIndexOf? text endTag with
  | some startIdx, some endIdx =>
      let block := jsTrim (jsSubstring text (startIdx + startTag.length) endIdx)
      let lines := (splitLines block).filter (fun l => jsStartsWith (jsTrim l) "-")
      lines.map parseRecLine
  | _, _ => []

/-! ### matchFilesToDrive (ChatPanel.jsx:111-134) -/

/-- `rec.filename.toLowerCase().replace(/[^a-z0-9.]/g, '')`. -/
def stripToAlnumDot (s : String) : String :=
  String.mk ((jsToLower s).toList.filter
    (fun c => (('a' ≤ c && c ≤ 'z') || ('0' ≤ c && c ≤ '9')) || c = '.'))

/-- Stage a: case-insensitive exact filename equality
(`driveFiles.find(f => f.name.toLowerCase() === rec.filename.toLowerCase())`). -/
def exactNameMatch (filename : String) (driveFiles : List DriveFile) : Option DriveFile :=
  driveFiles.find? (fun f => jsToLower f.name == jsToLower filename)

/-- Stage b: case-insensitive substring containment in either direction after
stripping every character but letters, digits and dots from both sides. -/
def strippedSubstringMatch (filename : String) (driveFiles : List DriveFile) :
    Option DriveFile :=
  let recName := stripToAlnumDot filename
  driveFiles.find? (fun f =>
    let dName := stripToAlnumDot f.name
    jsIncludes dName recName || jsIncludes recName dName)

/-- The token list of stage c: lowercase, split on `/[\s_\-.]+/`, keep
tokens longer than two characters.  (JS `split` on a `+`-quantified class
yields only boundary-empty extra pieces, which the length filter drops, so
collecting maximal non-separator runs is equivalent.) -/
def isTokenSep (c : Char) : Bool := isJsWs c || c = '_' || c = '-' || c = '.'

def tokenRunsAux : List Char → List Char → List String
  | [], acc => if acc.isEmpty then [] else [String.mk acc.reverse]
  | c :: cs, acc =>
      if isTokenSep c then
        (if acc.isEmpty then [] else [String.mk acc.reverse]) ++ tokenRunsAux cs []
      else tokenRunsAux cs (c :: acc)

def tokensOf (filename : String) : List String :=
  (tokenRunsAux (jsToLower filename).toList []).filter (fun w => 2 < w.length)

/-- Stage c: accept the first file containing at least
`Math.ceil(recWords.length * 0.5)` of the tokens. -/
def keywordOverlapMatch (filename : String) (driveFiles : List DriveFile) :
    Option DriveFile :=
  let recWords := tokensOf filename
  driveFiles.find? (fun f =>
    let fLower := jsToLower f.name
    Nat.ble (jsCeilHalf recWords.length)
      ((recWords.filter (fun w => jsIncludes fLower w)).length))

/-- `matchFilesToDrive(recommendations, driveFiles)`: per recommendation, the
three stages in strict precedence, `null` when all fail; every input yields
exactly one output record. -/
def matchFilesToDrive (recommendations : List Recommendation)
    (driveFiles : List DriveFile) : List MatchedRec :=
  recommendations.map (fun r =>
    let m1 := exactNameMatch r.filename driveFiles
    let m2 := match m1 with
      | some f => some f
      | none => strippedSubstringMatch r.filename driveFiles
    let m3 := match m2 with
      | some f => some f
      | none => keywordOverlapMatch r.filename driveFiles
    { filename := r.filename, reason := r.reason, driveFile := m3 })

/-! ### Session store operations (page.jsx:46-162) and the Ask-AI entry
point (the EmailDetail `handleAskAI` handler). -/

/-- The fresh session record installed by `createChatSession` (page.jsx:54-78). -/
def freshSession (msgId emailContext opportunity emailRef : String) : Session :=
  { msgId := msgId
    emailContext := emailContext
    opportunity := opportunity
    emailRef := emailRef
    phase := "pick"
    messages := []
    loading := false
    selectedProvider := "gemini"
    selectedModel := "gemini-3-flash-preview"
    selectedPreset := none
    systemPrompt := ""
    driveFiles := []
    driveFilesContent := []
    driveLoading := false
    driveError := none
    driveLoaded := false
    attachedFiles := []
    recommendedFiles := [] }

/-- `createChatSession` (page.jsx:54-78): unconditionally installs the fresh
record under `msgId` via object spread — there is no presence check here. -/
def createChatSession (st : Store) (msgId emailContext opportunity emailRef : String) :
    Store :=
  setKey st msgId (freshSession msgId emailContext opportunity emailRef)

/-- The store half of the EmailDetail `handleAskAI` handler: it calls
`createChatSession` only when `chatManager.sessions[msg.id]` is absent
("Create a new chat session if one doesn't exist for this message"). -/
def handleAskAICreate (st : Store) (msgId emailContext opportunity emailRef : String) :
    Store :=
  if (getSession st msgId).isSome then st
  else createChatSession st msgId emailContext opportunity emailRef

/-- `updateChatSession` (page.jsx:46-52): shallow-merge into the session,
silently a no-op when the session no longer exists.  The merged partial
record `{...session, ...updates}` is embedded as a field-overriding
function applied to the current session. -/
def updateChatSession (st : Store) (sessionId : String) (updates : Session → Session) :
    Store :=
  match getSession st sessionId with
  | none => st
  | some session => setKey st sessionId (updates session)

/-- `dismissChatSession` (page.jsx:146-153), store half: `delete next[k]`.
(The handler also clears the focused id — pure FocusController state,
not part of the store.) -/
def dismissChatSession (st : Store) (sessionId : String) : Store :=
  st.filter (fun p => !(p.1 == sessionId))

/-! ### The runner `sendAiMessage` (page.jsx:82-143), split at its one
suspension point (the network call) into three synchronous, total store
transitions.  Totality of `sendSuccess`/`sendFailure` is the embedding of
"no exception from a failed exchange ever escapes the runner": both
completion paths return a store unconditionally. -/

/-- Step 1 (page.jsx:83-91): append the user message to the *caller-supplied*
`prevMessages` and set `loading` optimistically; no-op if the session is gone. -/
def sendStart (st : Store) (sessionId text : String) (prevMessages : List ChatMsg) :
    Store :=
  let updated := prevMessages ++ [{ role := "user", content := text }]
  match getSession st sessionId with
  | none => st
  | some session =>
      setKey st sessionId { session with messages := updated, loading := true }

/-- The `driveFilesMeta` array of page.jsx:108-110:
`matched.filter(m => m.driveFile).map(m => ({id, name, mimeType}))`,
with `m.mimeType || ''` the identity on our string field. -/
def driveFilesMetaOf (reply : String) (driveFiles : List DriveFile) : List DriveFile :=
  (matchFilesToDrive (parseRecommendedAttachments reply) driveFiles).filterMap
    (fun m => m.driveFile.map (fun f =>
      ({ id := f.id, name := f.name, mimeType := f.mimeType } : DriveFile)))

/-- The `recommendedFiles` value computed on success (page.jsx:102-115):
only overwritten when the drive listing is non-empty, the reply parses to at
least one recommendation, and at least one recommendation matched a drive
file. -/
def successRecommendedFiles (reply : String) (session : Session) : List DriveFile :=
  if 0 < session.driveFiles.length then
    if 0 < (parseRecommendedAttachments reply).length then
      if 0 < (driveFilesMetaOf reply session.driveFiles).length then
        driveFilesMetaOf reply session.driveFiles
      else session.recommendedFiles
    else session.recommendedFiles
  else session.recommendedFiles

/-- Success path (page.jsx:96-121): append the assistant reply to the
session's *current* messages, clear `loading`, refresh `recommendedFiles`;
no-op if the session was dismissed while the call was in flight. -/
def sendSuccess (st : Store) (sessionId reply : String) : Store :=
  match getSession st sessionId with
  | none => st
  | some session =>
      setKey st sessionId
        { session with
          messages := session.messages ++ [{ role := "assistant", content := reply }]
          loading := false
          recommendedFiles := successRecommendedFiles reply session }

/-- `detail.toLowerCase().includes('rate-limit') || detail.includes('429')`
(page.jsx:125). -/
def isRateLimitDetail (detail : String) : Bool :=
  jsIncludes (jsToLower detail) "rate-limit" || jsIncludes detail "429"

/-- The throttling notice (page.jsx:127). -/
def rateLimitNotice : String :=
  "⚠️ All API keys are currently rate-limited. Please wait about a minute and try again."

/-- The generic failure notice (page.jsx:128), with the JS
`detail || 'Please try again.'` fallback for an empty detail. -/
def genericFailureNotice (detail : String) : String :=
  "⚠️ Failed to get a response. " ++ (if detail = "" then "Please try again." else detail)

/-- The single synthetic assistant message text chosen by the failure
classifier (page.jsx:125-128). -/
def aiFailureMessage (detail : String) : String :=
  if isRateLimitDetail detail then rateLimitNotice else genericFailureNotice detail

/-- Failure path (page.jsx:130-141): append exactly one synthetic
assistant message to the session's current messages and clear `loading`;
no-op if the session was dismissed in flight. -/
def sendFailure (st : Store) (sessionId detail : String) : Store :=
  match getSession st sessionId with
  | none => st
  | some session =>
      setKey st sessionId
        { session with
          messages := session.messages ++
            [{ role := "assistant", content := aiFailureMessage detail }]
          loading := false }

/-! ### NotificationProjector: `sessionList` (page.jsx:246-258) -/

/-- The synthetic-failure marker tested by `content.startsWith('⚠️')`. -/
def failureMarker : String := "⚠️"

/-- Status derivation of one session (the `map` body of `sessionList`):
`assistantMsgs` are the assistant transcript entries, `hasError` looks at
the *last assistant* entry. -/
def sessionStatus (s : Session) : String :=
  let assistantMsgs := s.messages.filter (fun m => m.role == "assistant")
  let hasError := !assistantMsgs.isEmpty &&
    (match assistantMsgs.getLast? with
     | some m => jsStartsWith m.content failureMarker
     | none => false)
  if s.loading then "thinking"
  else if hasError then "error"
  else if !assistantMsgs.isEmpty then "done"
  else "pending"

/-- One row of the projected list. -/
structure SessionView where
  msgId : String
  status : String
  assistantCount : Nat
deriving DecidableEq, Repr

/-- `sessionList` (page.jsx:246-258): sessions that have left the picker
(`phase === 'chat'`), each with its derived status. -/
def sessionList (st : Store) : List SessionView :=
  ((st.map Prod.snd).filter (fun s => s.phase == "chat")).map
    (fun s => { msgId := s.msgId, status := sessionStatus s,
                assistantCount := (s.messages.filter (fun m => m.role == "assistant")).length })

/-- The status formula exactly as claim C6 words it: "error" keys on the
most recent *transcript entry* being a marked assistant message. -/
def specStatusC6 (s : Session) : String :=
  if s.loading then "thinking"
  else if (match s.messages.getLast? with
           | some m => m.role == "assistant" && jsStartsWith m.content failureMarker
           | none => false) then "error"
  else if s.messages.any (fun m => m.role == "assistant") then "done"
  else "pending"

/-- The amended status formula: "error" keys on the most recent *assistant
message* carrying the marker (later user entries do not mask it). -/
def specStatusC6Amended (s : Session) : String :=
  if s.loading then "thinking"
  else if (match (s.messages.filter (fun m => m.role == "assistant")).getLast? with
           | some m => jsStartsWith m.content failureMarker
           | none => false) then "error"
  else if s.messages.any (fun m => m.role == "assistant") then "done"
  else "pending"

/-! ### Auxiliary lemmas -/

theorem getSession_dismiss_self (st : Store) (k : String) :
    getSession (dismissChatSession st k) k = none := by
  induction st with
  | nil => simp [dismissChatSession, getSession]
  | cons p rest ih =>
      obtain ⟨k₀, s₀⟩ := p
      simp only [dismissChatSession, List.filter_cons] at ih ⊢
      by_cases h : k₀ = k
      · subst h
        simp [ih]
      · simp [h, getSession, ih]

theorem filter_isEmpty_eq_not_any {α} (l : List α) (p : α → Bool) :
    (l.filter p).isEmpty = !(l.any p) := by
  induction l with
  | nil => rfl
  | cons a t ih => cases hp : p a <;> simp [List.filter_cons, hp, ih]

theorem take_append_le {α} (l₁ l₂ : List α) (n : Nat) (h : n ≤ l₁.length) :
    (l₁ ++ l₂).take n = l₁.take n := by
  induction l₁ generalizing n with
  | nil =>
      have hn : n = 0 := Nat.le_zero.mp h
      subst hn
      simp
  | cons a t ih =>
      cases n with
      | zero => simp
      | succ m =>
          simp only [List.cons_append, List.take_succ_cons]
          rw [ih m (by simpa using h)]

theorem stringAppend_data (a b : String) : (a ++ b).data = a.data ++ b.data := by
  cases a
  cases b
  rfl

/-- The two failure notices are distinguishable: the generic notice never
equals the throttling notice, whatever detail text it carries. -/
theorem genericFailureNotice_ne (d : String) :
    genericFailureNotice d ≠ rateLimitNotice := by
  unfold genericFailureNotice rateLimitNotice
  intro h
  have h4 := congrArg (fun s : String => s.data.take 4) h
  simp only [stringAppend_data] at h4
  rw [take_append_le _ _ 4 (by decide)] at h4
  exact absurd h4 (by decide)

/-- `filterMap` over the drive-file projection is inhabited only if some
input record carries a non-null match. -/
theorem any_isSome_of_filterMap (l : List MatchedRec)
    (g : DriveFile → DriveFile)
    (h : 0 < (l.filterMap (fun m => m.driveFile.map g)).length) :
    l.any (fun m => m.driveFile.isSome) = true := by
  induction l with
  | nil => simp at h
  | cons m t ih =>
      cases hm : m.driveFile with
      | none =>
          simp only [List.filterMap_cons, hm, Option.map_none'] at h
          simp [List.any_cons, hm, ih h]
      | some f => simp [List.any_cons, hm]

/-- If every record's match is null, the drive-file projection is empty. -/
theorem filterMap_eq_nil_of_all_isNone (l : List MatchedRec)
    (g : DriveFile → DriveFile)
    (h : l.all (fun m => m.driveFile.isNone) = true) :
    l.filterMap (fun m => m.driveFile.map g) = [] := by
  induction l with
  | nil => rfl
  | cons m t ih =>
      simp only [List.all_cons, Bool.and_eq_true] at h
      cases hm : m.driveFile with
      | none => simp [List.filterMap_cons, hm, ih h.2]
      | some f =>
          rw [hm] at h
          simp at h

/-- A find? whose predicate holds everywhere returns the head. -/
theorem find?_of_always_true {α} (l : List α) (p : α → Bool)
    (h : ∀ x, p x = true) : l.find? p = l.head? := by
  cases l with
  | nil => rfl
  | cons a t => simp [List.find?_cons, h a]

/-! ### The store transitions the session core performs.

Creation is the one the core actually executes: the Ask-AI handler's
guarded `createChatSession` call (it checks `chatManager.sessions[msg.id]`
first).  The `start` step carries the disabled-while-busy rule as its
hypothesis: the runner is only invoked with `prevMessages` equal to the
session's current transcript. -/
inductive CoreStep : Store → Store → Prop where
  | create (st : Store) (msgId ctx opp ref : String) :
      CoreStep st (handleAskAICreate st msgId ctx opp ref)
  | start (st : Store) (sessionId text : String) (prev : List ChatMsg) (s : Session)
      (hs : getSession st sessionId = some s) (hprev : prev = s.messages) :
      CoreStep st (sendStart st sessionId text prev)
  | success (st : Store) (sessionId reply : String) :
      CoreStep st (sendSuccess st sessionId reply)
  | failure (st : Store) (sessionId detail : String) :
      CoreStep st (sendFailure st sessionId detail)

/-! ### Concrete fixtures used by counterexamples and witnesses -/

def demoMsg : ChatMsg := { role := "user", content := "hi" }

def demoSession : Session :=
  { freshSession "m1" "ctx" "opp" "ref" with phase := "chat", messages := [demoMsg] }

def demoStore : Store := [("m1", demoSession)]

def c6Session : Session :=
  { freshSession "m6" "c" "o" "r" with
    phase := "chat"
    loading := false
    messages :=
      [ { role := "assistant", content := "⚠️ Failed to get a response. Please try again." },
        { role := "user", content := "retry" } ] }

/-! ### Claim C1 -/

/-- C1 counterexample: `createChatSession` invoked while a session with the
same key is already present is NOT a no-op — it reinstalls the fresh initial
record, resetting `phase` to "pick" and wiping the transcript. -/
theorem claim1_create_not_idempotent :
    getSession demoStore "m1" = some demoSession ∧
    getSession (createChatSession demoStore "m1" "c2" "o2" "r2") "m1" =
      some (freshSession "m1" "c2" "o2" "r2") ∧
    (freshSession "m1" "c2" "o2" "r2").messages ≠ demoSession.messages ∧
    (freshSession "m1" "c2" "o2" "r2").phase ≠ demoSession.phase ∧
    createChatSession demoStore "m1" "c2" "o2" "r2" ≠ demoStore := by
  decide

/-- C1 (amended): idempotent creation holds one level up, at the Ask-AI
entry point, which calls `createChatSession` only when no session exists
under the key: invoking it a second time with the same id (whatever context
it carries) leaves the store exactly as after the first invocation. -/
theorem claim1_askAI_create_idempotent (st : Store)
    (msgId c o r c' o' r' : String) :
    handleAskAICreate (handleAskAICreate st msgId c o r) msgId c' o' r' =
      handleAskAICreate st msgId c o r := by
  by_cases h : (getSession st msgId).isSome
  · simp [handleAskAICreate, h]
  · have hself : getSession (createChatSession st msgId c o r) msgId =
        some (freshSession msgId c o r) := getSession_setKey_self st msgId _
    simp [handleAskAICreate, h, hself]

/-! ### Claim C2 -/

/-- C2: a mutation against a missing/disposed session is silently dropped
(all four mutating transitions are no-ops and, being total functions,
cannot throw), and in particular a dismissal followed by the in-flight
exchange's completion leaves the store exactly as dismissed: same bindings,
same count, no session reappearing under the key. -/
theorem claim2_missing_session_noop (st : Store) (k : String)
    (updates : Session → Session) (text reply detail : String)
    (prev : List ChatMsg) :
    (getSession st k = none →
      updateChatSession st k updates = st ∧ sendStart st k text prev = st ∧
      sendSuccess st k reply = st ∧ sendFailure st k detail = st) ∧
    getSession (dismissChatSession st k) k = none ∧
    sendSuccess (dismissChatSession st k) k reply = dismissChatSession st k ∧
    sendFailure (dismissChatSession st k) k detail = dismissChatSession st k ∧
    (sendSuccess (dismissChatSession st k) k reply).length =
      (dismissChatSession st k).length := by
  have hd := getSession_dismiss_self st k
  constructor
  · intro h
    unfold updateChatSession sendStart sendSuccess sendFailure
    rw [h]
    exact ⟨rfl, rfl, rfl, rfl⟩
  · refine ⟨hd, ?_, ?_, ?_⟩
    · unfold sendSuccess
      rw [hd]
    · unfold sendFailure
      rw [hd]
    · unfold sendSuccess
      rw [hd]

/-- C2 witness: concrete instances — mutating an empty store under an absent
key, and completing an exchange after its session was dismissed. -/
theorem claim2_witness :
    updateChatSession ([] : Store) "ghost" id = ([] : Store) ∧
    sendStart ([] : Store) "ghost" "t" [] = ([] : Store) ∧
    sendSuccess ([] : Store) "ghost" "ok" = ([] : Store) ∧
    sendFailure ([] : Store) "ghost" "err" = ([] : Store) ∧
    getSession (dismissChatSession demoStore "m1") "m1" = none ∧
    sendSuccess (dismissChatSession demoStore "m1") "m1" "ok" =
      dismissChatSession demoStore "m1" := by
  have h1 := claim2_missing_session_noop ([] : Store) "ghost" id "t" "ok" "err" []
  have h2 := claim2_missing_session_noop demoStore "m1" id "t" "ok" "err" []
  exact ⟨(h1.1 rfl).1, (h1.1 rfl).2.1, (h1.1 rfl).2.2.1, (h1.1 rfl).2.2.2,
         h2.2.1, h2.2.2.1⟩

/-! ### Claim C3 -/

/-- C3: every provider failure is absorbed into the transcript: the failure
path (a total function — nothing is re-thrown) appends exactly one synthetic
assistant message whose text is the rate-limit notice precisely when the
detail contains a rate-limit indication or "429", and otherwise the generic
notice, which differs from the rate-limit notice; `loading` is cleared. -/
theorem claim3_failure_absorbed (st : Store) (k detail : String) (s : Session)
    (h : getSession st k = some s) :
    getSession (sendFailure st k detail) k =
      some { s with
             messages := s.messages ++
               [{ role := "assistant", content := aiFailureMessage detail }]
             loading := false } ∧
    (isRateLimitDetail detail = true → aiFailureMessage detail = rateLimitNotice) ∧
    (isRateLimitDetail detail = false →
      aiFailureMessage detail = genericFailureNotice detail ∧
      aiFailureMessage detail ≠ rateLimitNotice) := by
  refine ⟨?_, ?_, ?_⟩
  · unfold sendFailure
    rw [h]
    exact getSession_setKey_self st k _
  · intro hr
    simp [aiFailureMessage, hr]
  · intro hr
    have hmsg : aiFailureMessage detail = genericFailureNotice detail := by
      simp [aiFailureMessage, hr]
    exact ⟨hmsg, hmsg ▸ genericFailureNotice_ne detail⟩

/-- C3 witness: a concrete 429 failure against a live session. -/
theorem claim3_witness :
    getSession (sendFailure demoStore "m1" "HTTP 429 backoff") "m1" =
      some { demoSession with
             messages := demoSession.messages ++
               [{ role := "assistant",
                  content := aiFailureMessage "HTTP 429 backoff" }]
             loading := false } ∧
    aiFailureMessage "HTTP 429 backoff" = rateLimitNotice := by
  have h := claim3_failure_absorbed demoStore "m1" "HTTP 429 backoff" demoSession rfl
  exact ⟨h.1, h.2.1 (by decide)⟩

/-! ### Claim C4 -/

/-- C4: across every store operation the session core performs — guarded
creation, exchange start with its optimistic user-message append (under the
disabled-while-busy precondition that `prevMessages` equals the session's
current transcript), exchange success and exchange failure — each existing
session's transcript only ever grows by a suffix: no entry is reordered or
deleted, and the length is monotonically non-decreasing. -/
theorem claim4_transcript_monotone (st st' : Store) (hstep : CoreStep st st')
    (k : String) (s : Session) (h : getSession st k = some s) :
    ∃ s' t, getSession st' k = some s' ∧ s'.messages = s.messages ++ t := by
  cases hstep with
  | create msgId ctx opp ref =>
      unfold handleAskAICreate createChatSession
      by_cases hm : (getSession st msgId).isSome
      · rw [if_pos hm]
        exact ⟨s, [], h, by simp⟩
      · rw [if_neg hm]
        by_cases hk : msgId = k
        · exfalso
          subst hk
          rw [h] at hm
          exact hm rfl
        · refine ⟨s, [], ?_, by simp⟩
          rw [getSession_setKey_ne st msgId k _ hk]
          exact h
  | start sessionId text prev s₀ hs hprev =>
      by_cases hk : sessionId = k
      · subst hk
        have hss : s₀ = s := by
          rw [h] at hs
          exact (Option.some.inj hs).symm
        subst hss
        simp only [sendStart, hs]
        exact ⟨_, [{ role := "user", content := text }],
               getSession_setKey_self st sessionId _, by simp [hprev]⟩
      · simp only [sendStart, hs]
        refine ⟨s, [], ?_, by simp⟩
        rw [getSession_setKey_ne st sessionId k _ hk]
        exact h
  | success sessionId reply =>
      by_cases hk : sessionId = k
      · subst hk
        simp only [sendSuccess, h]
        exact ⟨_, [{ role := "assistant", content := reply }],
               getSession_setKey_self st sessionId _, rfl⟩
      · cases hgs : getSession st sessionId with
        | none =>
            simp only [sendSuccess, hgs]
            exact ⟨s, [], h, by simp⟩
        | some s₁ =>
            simp only [sendSuccess, hgs]
            refine ⟨s, [], ?_, by simp⟩
            rw [getSession_setKey_ne st sessionId k _ hk]
            exact h
  | failure sessionId detail =>
      by_cases hk : sessionId = k
      · subst hk
        simp only [sendFailure, h]
        exact ⟨_, [{ role := "assistant", content := aiFailureMessage detail }],
               getSession_setKey_self st sessionId _, rfl⟩
      · cases hgs : getSession st sessionId with
        | none =>
            simp only [sendFailure, hgs]
            exact ⟨s, [], h, by simp⟩
        | some s₁ =>
            simp only [sendFailure, hgs]
            refine ⟨s, [], ?_, by simp⟩
            rw [getSession_setKey_ne st sessionId k _ hk]
            exact h

/-- C4 witness: a concrete successful completion against a live session. -/
theorem claim4_witness :
    ∃ s' t, getSession (sendSuccess demoStore "m1" "ok") "m1" = some s' ∧
      s'.messages = demoSession.messages ++ t :=
  claim4_transcript_monotone demoStore _ (CoreStep.success demoStore "m1" "ok")
    "m1" demoSession rfl

/-! ### Claim C5 -/

/-- C5: on exchange success, `recommendedFiles` is overwritten only when the
matcher produced at least one recommendation with a non-null match; a reply
with no recommendation block, or whose recommendations all failed to match,
leaves the previous value untouched. -/
theorem claim5_recommended_preserved (st : Store) (k reply : String)
    (s : Session) (h : getSession st k = some s) :
    getSession (sendSuccess st k reply) k =
      some { s with
             messages := s.messages ++ [{ role := "assistant", content := reply }]
             loading := false
             recommendedFiles := successRecommendedFiles reply s } ∧
    (successRecommendedFiles reply s ≠ s.recommendedFiles →
      (matchFilesToDrive (parseRecommendedAttachments reply) s.driveFiles).any
        (fun m => m.driveFile.isSome) = true) ∧
    (parseRecommendedAttachments reply = [] →
      successRecommendedFiles reply s = s.recommendedFiles) ∧
    ((matchFilesToDrive (parseRecommendedAttachments reply) s.driveFiles).all
        (fun m => m.driveFile.isNone) = true →
      successRecommendedFiles reply s = s.recommendedFiles) := by
  refine ⟨?_, ?_, ?_, ?_⟩
  · unfold sendSuccess
    rw [h]
    exact getSession_setKey_self st k _
  · intro hne
    unfold successRecommendedFiles at hne
    split_ifs at hne with h1 h2 h3
    · unfold driveFilesMetaOf at h3
      exact any_isSome_of_filterMap _ _ h3
    · exact absurd rfl hne
    · exact absurd rfl hne
    · exact absurd rfl hne
  · intro hp
    unfold successRecommendedFiles
    rw [hp]
    simp
  · intro hall
    have hmeta : driveFilesMetaOf reply s.driveFiles = [] := by
      unfold driveFilesMetaOf
      exact filterMap_eq_nil_of_all_isNone _ _ hall
    unfold successRecommendedFiles
    rw [hmeta]
    simp

/-- C5 witness: a reply with no recommendation block leaves the previous
recommendation set intact. -/
theorem claim5_witness :
    getSession (sendSuccess demoStore "m1" "hello") "m1" =
      some { demoSession with
             messages := demoSession.messages ++
               [{ role := "assistant", content := "hello" }]
             loading := false
             recommendedFiles := successRecommendedFiles "hello" demoSession } ∧
    successRecommendedFiles "hello" demoSession = demoSession.recommendedFiles := by
  have h := claim5_recommended_preserved demoStore "m1" "hello" demoSession rfl
  exact ⟨h.1, h.2.2.1 (by decide)⟩

/-! ### Claim C6 -/

/-- C6 counterexample: a non-busy chat session whose transcript ends with a
user entry after a marked assistant failure message: the code's projection
reports "error" (it looks at the last *assistant* message), while the
claim's formula — keyed on the most recent *transcript entry* — says
"done". -/
theorem claim6_counterexample :
    c6Session.phase = "chat" ∧
    sessionStatus c6Session = "error" ∧
    specStatusC6 c6Session = "done" ∧
    sessionStatus c6Session ≠ specStatusC6 c6Session := by
  decide

/-- C6 (amended): for every session that has left picking-mode, the
projected status is: "thinking" if busy; else "error" if the most recent
*assistant message* carries the synthetic failure marker; else "done" if
any assistant message exists; else "pending". -/
theorem claim6_status_formula (s : Session) (_hphase : s.phase = "chat") :
    sessionStatus s = specStatusC6Amended s := by
  unfold sessionStatus specStatusC6Amended
  cases hl : s.loading with
  | true => simp [hl]
  | false =>
      simp only [hl, Bool.false_eq_true, if_false]
      cases hA : (s.messages.filter (fun m => m.role == "assistant")).getLast? with
      | none =>
          have hnil : s.messages.filter (fun m => m.role == "assistant") = [] :=
            List.getLast?_eq_none_iff.mp hA
          have hany : s.messages.any (fun m => m.role == "assistant") = false := by
            have hx := filter_isEmpty_eq_not_any s.messages
              (fun m => m.role == "assistant")
            rw [hnil] at hx
            simpa using hx.symm
          simp [hA, hnil, hany]
      | some m =>
          have hne : s.messages.filter (fun m => m.role == "assistant") ≠ [] := by
            intro hnil
            rw [hnil] at hA
            simp at hA
          have hisE : (s.messages.filter (fun m => m.role == "assistant")).isEmpty
              = false := by
            cases hc : s.messages.filter (fun m => m.role == "assistant") with
            | nil => exact absurd hc hne
            | cons a t => rfl
          have hany : s.messages.any (fun m => m.role == "assistant") = true := by
            have hx := filter_isEmpty_eq_not_any s.messages
              (fun m => m.role == "assistant")
            rw [hisE] at hx
            simpa using hx.symm
          simp [hA, hisE, hany]

/-- C6 witness: the formula agrees on a concrete non-busy chat session. -/
theorem claim6_witness :
    sessionStatus demoSession = specStatusC6Amended demoSession :=
  claim6_status_formula demoSession rfl

/-! ### Claim C7 -/

/-- C7 counterexample: on recommendation "Spec_Sheet.pdf" versus candidate
"spec sheet.pdf", the first stage — case-insensitive *exact* filename
equality — does NOT succeed: lowercasing does not reconcile the underscore
with the space. -/
theorem claim7_exact_stage_fails :
    exactNameMatch "Spec_Sheet.pdf"
      [{ id := "1", name := "spec sheet.pdf", mimeType := "application/pdf" }] =
      none := by
  decide

/-- C7 (amended): the match on this input is produced by the *second* stage
(case-insensitive substring after stripping to letters/digits/dots), and the
resulting record's matched file is non-null. -/
theorem claim7_stripped_stage_matches :
    strippedSubstringMatch "Spec_Sheet.pdf"
      [{ id := "1", name := "spec sheet.pdf", mimeType := "application/pdf" }] =
      some { id := "1", name := "spec sheet.pdf", mimeType := "application/pdf" } ∧
    (matchFilesToDrive [{ filename := "Spec_Sheet.pdf", reason := "needed" }]
        [{ id := "1", name := "spec sheet.pdf", mimeType := "application/pdf" }]).map
      (fun m => m.driveFile) =
      [some { id := "1", name := "spec sheet.pdf", mimeType := "application/pdf" }] := by
  decide

/-! ### Claim C8 -/

/-- C8 counterexample: on recommendation "CLIN_0001_Drawing.pdf" versus
candidate "clin0001-drawing-v2.PDF", the second stage — substring after
stripping — does NOT succeed: "clin0001drawing.pdf" is not a substring of
"clin0001drawingv2.pdf" (the ".pdf" tail is interrupted by "v2") and the
reverse containment fails on length. -/
theorem claim8_stripped_stage_fails :
    strippedSubstringMatch "CLIN_0001_Drawing.pdf"
      [{ id := "2", name := "clin0001-drawing-v2.PDF", mimeType := "" }] =
      none := by
  decide

/-- C8 (amended): the first two stages fail on this input; the match is
produced by the *third* stage (keyword overlap: all four tokens "clin",
"0001", "drawing", "pdf" occur in the candidate, meeting the ceil(50%)
threshold), and the resulting record's matched file is non-null. -/
theorem claim8_keyword_stage_matches :
    exactNameMatch "CLIN_0001_Drawing.pdf"
      [{ id := "2", name := "clin0001-drawing-v2.PDF", mimeType := "" }] = none ∧
    keywordOverlapMatch "CLIN_0001_Drawing.pdf"
      [{ id := "2", name := "clin0001-drawing-v2.PDF", mimeType := "" }] =
      some { id := "2", name := "clin0001-drawing-v2.PDF", mimeType := "" } ∧
    (matchFilesToDrive [{ filename := "CLIN_0001_Drawing.pdf", reason := "rev" }]
        [{ id := "2", name := "clin0001-drawing-v2.PDF", mimeType := "" }]).map
      (fun m => m.driveFile) =
      [some { id := "2", name := "clin0001-drawing-v2.PDF", mimeType := "" }] := by
  decide

/-! ### Claim C9 -/

/-- C9: an AI reply without the start/end marker pair parses to the empty
recommendation list, and so does a block whose trimmed content is the
literal "none" sentinel (no line of it starts with a dash); the parser is a
total function, so neither case can raise. -/
theorem claim9_absent_or_none_block (text : String) :
    (strIndexOf? text startTag = none ∨ strIndexOf? text endTag = none →
      parseRecommendedAttachments text = []) ∧
    (∀ i j, strIndexOf? text startTag = some i → strIndexOf? text endTag = some j →
      jsTrim (jsSubstring text (i + startTag.length) j) = "none" →
      parseRecommendedAttachments text = []) := by
  constructor
  · intro h
    unfold parseRecommendedAttachments
    rcases h with h | h
    · rw [h]
    · rw [h]
      cases strIndexOf? text startTag <;> rfl
  · intro i j hi hj hblock
    unfold parseRecommendedAttachments
    rw [hi, hj]
    simp only [hblock]
    rfl

/-- C9 witness: a reply with no block at all, and a block carrying the
"none" sentinel. -/
theorem claim9_witness :
    parseRecommendedAttachments "Here is the draft email." = [] ∧
    parseRecommendedAttachments
      "RECOMMENDED_ATTACHMENTS_START\nnone\nRECOMMENDED_ATTACHMENTS_END" = [] := by
  have h1 := claim9_absent_or_none_block "Here is the draft email."
  have h2 := claim9_absent_or_none_block
    "RECOMMENDED_ATTACHMENTS_START\nnone\nRECOMMENDED_ATTACHMENTS_END"
  exact ⟨h1.1 (Or.inl (by decide)), h2.2 0 35 (by decide) (by decide) (by decide)⟩

/-! ### Claim C10 -/

/-- C10: when the declared filename yields no token longer than two
characters, the keyword-overlap threshold `ceil(0 * 0.5) = 0` is met by
every candidate, so if the first two stages fail on a non-empty candidate
list the matcher returns the *first* candidate as a non-null match — even
though no token of the declared filename occurs in it. -/
theorem claim10_empty_tokens_match_first (filename reason : String)
    (driveFiles : List DriveFile) (f : DriveFile)
    (hhead : driveFiles.head? = some f)
    (htok : tokensOf filename = [])
    (h1 : exactNameMatch filename driveFiles = none)
    (h2 : strippedSubstringMatch filename driveFiles = none) :
    matchFilesToDrive [{ filename := filename, reason := reason }] driveFiles =
      [{ filename := filename, reason := reason, driveFile := some f }] := by
  have hk : keywordOverlapMatch filename driveFiles = some f := by
    simp only [keywordOverlapMatch, htok]
    rw [find?_of_always_true]
    · exact hhead
    · intro x
      rfl
  unfold matchFilesToDrive
  simp only [List.map_cons, List.map_nil, h1, h2, hk]

/-- C10 witness: declared filename "A B" (two one-letter tokens) against the
single unrelated candidate "zzz.pdf". -/
theorem claim10_witness :
    matchFilesToDrive [{ filename := "A B", reason := "" }]
      [{ id := "3", name := "zzz.pdf", mimeType := "" }] =
      [{ filename := "A B", reason := "",
         driveFile := some { id := "3", name := "zzz.pdf", mimeType := "" } }] :=
  claim10_empty_tokens_match_first "A B" ""
    [{ id := "3", name := "zzz.pdf", mimeType := "" }]
    { id := "3", name := "zzz.pdf", mimeType := "" }
    rfl (by decide) (by decide) (by decide)

end EmailDash
